import Mathlib

/-!
Shallow embedding of the dbeb_rag backend (FastAPI + LangChain RAG service)
for verification of its specification claims.

The embedding translates the Python sources under `backend/app/`:
  * `services/agent_router.py` — heuristic and model-based intent routing;
  * `services/llm.py`          — session context variable, retrieval tools,
                                 and the LangGraph agent/tools state machine;
  * `services/vector_store.py` — session document tagging and the
                                 metadata-filtered session search;
  * `services/evaluator.py`    — candidate evaluation response parsing;
  * `api/endpoints.py` and `api/agent_endpoint.py` — SSE streaming
                                 generators and the batch evaluation route.

External collaborators (the chat model, `json.loads`, the similarity
ranking of the vector index) are represented as oracle parameters: the
theorems quantify over every behaviour of these oracles.  Python values
that can be one of several runtime types (message content, JSON data)
are represented by small inductive types.
-/

namespace DbebRag

/-- Auxiliary: does `sub` occur as a contiguous subsequence of `s`?
All string helpers below work on the underlying character lists by
structural recursion, so that closed instances evaluate inside the
kernel. -/
def containsSeq (sub : List Char) : List Char → Bool
  | [] => sub.isEmpty
  | c :: rest => sub.isPrefixOf (c :: rest) || containsSeq sub rest

/-- Python `sub in s` on text: substring containment. -/
def strContains (s sub : String) : Bool :=
  containsSeq sub.data s.data

/-- Python `str.lower()` (ASCII case folding, which covers all keyword and
filename data the router handles). -/
def pyLower (s : String) : String := ⟨s.data.map Char.toLower⟩

/-- Python `str.endswith(post)`. -/
def strEndsWith (s post : String) : Bool :=
  post.data.reverse.isPrefixOf s.data.reverse

/-- Python `str.startswith(pre)`. -/
def strStartsWith (s pre : String) : Bool :=
  pre.data.isPrefixOf s.data

/-- Python `str.strip()`: remove leading and trailing whitespace (the
inputs reaching it use only space, tab, CR and LF whitespace). -/
def pyStrip (s : String) : String :=
  ⟨((s.data.dropWhile Char.isWhitespace).reverse.dropWhile
      Char.isWhitespace).reverse⟩

/-- `IntentClassification` dataclass from `agent_router.py`.  The `intent`
field is annotated `Literal["chat","ingest","evaluate"]` in Python but not
enforced at runtime; we carry it as a string, and the confidence as an
exact rational. -/
structure IntentClassification where
  intent : String
  confidence : ℚ
  reasoning : String
deriving DecidableEq, Repr

/-- The Python float literals used by the router (0.95, 0.9, 0.85, 0.5,
0.8) as exact rationals. -/
def conf (hundredths : ℕ) : ℚ := mkRat hundredths 100

/-- `evaluate_keywords` list from `detect_intent_heuristic`. -/
def evaluate_keywords : List String :=
  ["evaluate", "screen", "assess", "candidate", "resume", "hiring", "recruit"]

/-- `ingest_keywords` list from `detect_intent_heuristic`. -/
def ingest_keywords : List String :=
  ["ingest", "add to database", "add to knowledge", "store permanently",
   "upload to system", "add this document", "save to database"]

/-- `chat_keywords` list from `detect_intent_heuristic`. -/
def chat_keywords : List String :=
  ["what", "how", "why", "explain", "tell me", "summarize", "?"]

/-- `detect_intent_heuristic(message, file_names)` from `agent_router.py`:
csv+zip+evaluation keyword → evaluate 0.95; ingest keyword → ingest 0.90;
at most one file and a question pattern → chat 0.85; otherwise `None`. -/
def detect_intent_heuristic (message : String) (file_names : List String) :
    Option IntentClassification :=
  let message_lower := pyLower message
  let has_csv := file_names.any (fun f => strEndsWith (pyLower f) ".csv")
  let has_zip := file_names.any (fun f => strEndsWith (pyLower f) ".zip")
  if has_csv && has_zip
      && evaluate_keywords.any (fun kw => strContains message_lower kw) then
    some ⟨"evaluate", conf 95, "CSV + ZIP files with evaluation keywords detected"⟩
  else if ingest_keywords.any (fun kw => strContains message_lower kw) then
    some ⟨"ingest", conf 90, "Explicit ingest keywords detected"⟩
  else if (file_names.isEmpty || file_names.length == 1)
      && chat_keywords.any (fun kw => strContains message_lower kw) then
    some ⟨"chat", conf 85, "Question/chat pattern detected"⟩
  else
    none

/-- `route_intent(message, file_names)` from `agent_router.py`.  The model
fallback `classify_intent` is passed in as the value it would produce;
the boolean records whether that model call was issued. -/
def route_intent (message : String) (file_names : List String)
    (classifyResult : IntentClassification) : IntentClassification × Bool :=
  match detect_intent_heuristic message file_names with
  | some h => if conf 85 ≤ h.confidence then (h, false) else (classifyResult, true)
  | none => (classifyResult, true)

/-! ### Model-based classification (`classify_intent`)

A Python exception is rendered as its message string; fallible steps live
in `Except PyErr`.  The model invocation and `json.loads` are external
collaborators, passed in as oracles so the theorems quantify over every
behaviour they can exhibit. -/

/-- A raised Python exception, rendered as its message. -/
abbrev PyErr := String

/-- Values `json.loads` can produce. -/
inductive Json where
  | null
  | bool (b : Bool)
  | num (q : ℚ)
  | str (s : String)
  | arr (elems : List Json)
  | obj (fields : List (String × Json))
deriving Repr, BEq

/-- One element of a list-valued LangChain message content: either a dict
(whose `.get("text", "")` yields `text` when the key is present, `""`
otherwise) or any other value, rendered by `str`. -/
inductive ContentBlock where
  | dict (text : Option String)
  | other (s : String)
deriving Repr, DecidableEq

/-- `response.content` of a LangChain chat result: a plain string or a
list of content blocks. -/
inductive LLMContent where
  | str (s : String)
  | blocks (bs : List ContentBlock)
deriving Repr, DecidableEq

/-- The `"".join(...)` flattening applied by `classify_intent` (and by
`evaluate_candidate`, which uses `str(content)` for the non-list case). -/
def flattenContent : LLMContent → String
  | .str s => s
  | .blocks bs =>
      String.join (bs.map fun b => match b with
        | .dict t => t.getD ""
        | .other s => s)

/-- The code-fence cleanup in `classify_intent`: after `content.strip()`,
if the text starts with a fence, `re.sub` removes the opening fence with
an optional `json` tag and following whitespace, and then a trailing run
of whitespace followed by a closing fence.  (The input is already
stripped, so it cannot end in whitespace, and the end-of-string regex
anchor behaves as plain end of string here.) -/
def stripFencesRouter (s : String) : String :=
  if strStartsWith s "```" then
    let r1 : List Char := s.data.drop 3
    let r2 : List Char := if ("json".data).isPrefixOf r1 then r1.drop 4 else r1
    let r3 : List Char := r2.dropWhile Char.isWhitespace
    if ("```".data.reverse).isPrefixOf r3.reverse then
      ⟨((r3.reverse.drop 3).dropWhile Char.isWhitespace).reverse⟩
    else ⟨r3⟩
  else s

/-- Association lookup in a JSON object (first binding wins, as in a
Python dict built from distinct keys). -/
def lookupField : List (String × Json) → String → Option Json
  | [], _ => none
  | (k', v) :: rest, k => if k' = k then some v else lookupField rest k

/-- Python `data.get(key)`: total on dicts, an `AttributeError` on any
other value (as raised when `json.loads` returns a non-object). -/
def dictGet : Json → String → Except PyErr (Option Json)
  | .obj fields, k => .ok (lookupField fields k)
  | _, _ => .error "AttributeError: get on non-dict JSON value"

/-- Python `float(x)` on a JSON-derived value.  Numbers and booleans
convert; `None`, lists and dicts raise.  Numeric strings would convert in
Python; the model maps them to an error, a simplification no claim
touches (the prompt requests a JSON number and every claim about this
path concerns the failure branch). -/
def pyFloat : Json → Except PyErr ℚ
  | .num q => .ok q
  | .bool b => .ok (if b then 1 else 0)
  | .str _ => .error "float() on a string value"
  | .null => .error "float() argument must not be None"
  | .arr _ => .error "float() on a list"
  | .obj _ => .error "float() on a dict"

/-- Non-string JSON values stored into the string-typed dataclass fields
are rendered to display strings (Python would store them unchecked; no
claim depends on this rendering). -/
def jsonAsString : Json → String
  | .str s => s
  | .null => "None"
  | .bool b => if b then "True" else "False"
  | .num _ => "<number>"
  | .arr _ => "<list>"
  | .obj _ => "<dict>"

/-- The `try` body of `classify_intent`: invoke the model, flatten and
clean its content, parse JSON, and build the classification (confidence
defaults to 0.8 when the key is absent). -/
def classify_try (invoke : Except PyErr LLMContent)
    (jsonLoads : String → Except PyErr Json) :
    Except PyErr IntentClassification := do
  let content ← invoke
  let cleaned := stripFencesRouter (pyStrip (flattenContent content))
  let data ← jsonLoads cleaned
  let intentVal ← dictGet data "intent"
  let confVal ← dictGet data "confidence"
  let confidence ← pyFloat (confVal.getD (.num (conf 80)))
  let reasonVal ← dictGet data "reasoning"
  pure ⟨(intentVal.map jsonAsString).getD "chat", confidence,
        (reasonVal.map jsonAsString).getD ""⟩

/-- `classify_intent(message, file_names)` from `agent_router.py`: the
`try` body with the `except` fallback to the default classification. -/
def classify_intent (invoke : Except PyErr LLMContent)
    (jsonLoads : String → Except PyErr Json) : IntentClassification :=
  match classify_try invoke jsonLoads with
  | .ok r => r
  | .error e =>
      ⟨"chat", conf 50, "Classification failed, defaulting to chat: " ++ e⟩

/-! ### Vector store, session tagging and session-scoped search

`vector_store.py` and the two retrieval tools in `llm.py`.  A stored
document is a chunk with a string-valued metadata dict.  The vector
index itself is an external collaborator: a metadata-filtered similarity
search returns at most `k` chunks drawn from those matching the filter,
in an opaque similarity order; theorems assume only that the ranking
oracle returns elements of the candidate set handed to it. -/

/-- A LangChain document chunk: page content plus string-valued metadata
(the fields used here, `source` and `session_id`, hold strings). -/
structure Chunk where
  page_content : String
  metadata : List (String × String)
deriving DecidableEq, Repr

/-- Dict lookup on chunk metadata. -/
def metaLookup : List (String × String) → String → Option String
  | [], _ => none
  | (k', v) :: rest, k => if k' = k then some v else metaLookup rest k

/-- Python dict assignment `d[k] = v`: replace the binding if the key is
present, append it otherwise. -/
def metaSet : List (String × String) → String → String → List (String × String)
  | [], k, v => [(k, v)]
  | (k', v') :: rest, k, v =>
      if k' = k then (k, v) :: rest else (k', v') :: metaSet rest k v

/-- The tagging loop of `add_session_documents(documents, thread_id)`:
`doc.metadata["session_id"] = thread_id` for every document. -/
def tagSessionDocuments (documents : List Chunk) (thread_id : String) :
    List Chunk :=
  documents.map fun d => { d with metadata := metaSet d.metadata "session_id" thread_id }

/-- `add_session_documents` from `vector_store.py`: tag every document
with the adding request's thread identifier, then add them to the
session collection (modelled as the list of stored chunks). -/
def add_session_documents (documents : List Chunk) (thread_id : String)
    (store : List Chunk) : List Chunk :=
  store ++ tagSessionDocuments documents thread_id

/-- The Qdrant filter built by `search_session_knowledge`:
`Filter(must=[FieldCondition(key="metadata.session_id",
match=MatchValue(value=thread_id))])` matches a stored point iff its
payload field `metadata.session_id` equals `thread_id` (a point lacking
the field does not match). -/
def matchesSessionFilter (thread_id : String) (c : Chunk) : Bool :=
  metaLookup c.metadata "session_id" == some thread_id

/-- Python `"\n\n".join`-style concatenation. -/
def joinSep (sep : String) : List String → String
  | [] => ""
  | [x] => x
  | x :: y :: rest => x ++ sep ++ joinSep sep (y :: rest)

/-- `similarity_search(query, k=4, filter=...)` on the session collection:
the store-side filter keeps exactly the chunks matching the session
filter; the external index then returns at most 4 of them in an opaque
similarity order, modelled by the ranking oracle `rank`. -/
def search_session_results (store : List Chunk)
    (rank : String → List Chunk → List Chunk) (thread_id : String)
    (query : String) : List Chunk :=
  (rank query (store.filter (matchesSessionFilter thread_id))).take 4

/-- The `search_session_knowledge` tool from `llm.py`.  `ctx` is the
current value of the `session_context` context variable (default
`None`); Python `if not thread_id` treats both `None` and the empty
string as unset.  The `except` branch of the tool (store connection
errors) returns a diagnostic string and no chunks; it is not modelled
further since no claim exercises it. -/
def search_session_knowledge (ctx : Option String) (store : List Chunk)
    (rank : String → List Chunk → List Chunk) (query : String) : String :=
  match ctx with
  | none => "No session context found. Cannot search session documents."
  | some tid =>
      if tid = "" then "No session context found. Cannot search session documents."
      else
        let results := search_session_results store rank tid query
        if results.isEmpty then "No relevant information found in session documents."
        else joinSep "\n\n" (results.map (·.page_content))

/-- The `search_global_knowledge` tool from `llm.py`: unfiltered top-4
search on the global collection. -/
def search_global_knowledge (store : List Chunk)
    (rank : String → List Chunk → List Chunk) (query : String) : String :=
  joinSep "\n\n" (((rank query store).take 4).map (·.page_content))

/-! ### The session context variable

`session_context = ContextVar("session_context", default=None)`.
Python contextvars semantics: `set(v)` installs `v` and returns a token
carrying the previous value; `reset(token)` restores that previous
value. -/

/-- The state of the `session_context` context variable. -/
structure CtxState where
  ctx : Option String
deriving DecidableEq, Repr

/-- `session_context.set(v)`: returns the new state and the reset token
(which carries the prior value). -/
def ctxSet (s : CtxState) (v : String) : CtxState × Option String :=
  (⟨some v⟩, s.ctx)

/-- `session_context.reset(token)`: restores the value saved in the
token. -/
def ctxReset (token : Option String) : CtxState :=
  ⟨token⟩

/-! ### Streaming response translators

The SSE generators `_handle_chat` (`agent_endpoint.py`) and
`stream.event_generator` (`endpoints.py`).  The model-invocation event
stream produced by `graph.astream_events` is the input: a list of
events, optionally followed by an exception raised by the stream source.
`request.is_disconnected()` is polled once per event, before the event
is processed; its result is recorded on the event. -/

/-- `block.get("text", "")` when the block is a dict, `str(block)`
otherwise. -/
def blockText : ContentBlock → String
  | .dict t => t.getD ""
  | .other s => s

/-- `chunk.content` of a streamed `AIMessageChunk`: `None`, a string, or
a list of content blocks. -/
inductive MsgContent where
  | nil
  | str (s : String)
  | blocks (bs : List ContentBlock)
deriving DecidableEq, Repr

/-- A streamed chunk as inspected by the generator: the `isinstance`
test, the `tool_call_chunks` list and the content. -/
structure StreamChunk where
  isAIMessageChunk : Bool
  tool_call_chunks : List String
  content : MsgContent
deriving DecidableEq, Repr

/-- One event from `graph.astream_events`, together with the result of
the disconnect poll made before processing it. -/
structure StreamEvent where
  disconnected : Bool
  kind : String
  chunk : StreamChunk
deriving DecidableEq, Repr

/-- The text extracted from a chunk: joined block texts for list content,
`str(content) if content else ""` otherwise (`None` and `""` are both
falsy). -/
def chunkText (c : StreamChunk) : String :=
  match c.content with
  | .nil => ""
  | .str s => s
  | .blocks bs => String.join (bs.map blockText)

/-- The token-frame decision for one event: a `token` frame is emitted
iff the event is an `on_chat_model_stream` event whose chunk is an
`AIMessageChunk` with an empty `tool_call_chunks` list and non-empty
extracted text. -/
def emitsToken (e : StreamEvent) : Option String :=
  if e.kind == "on_chat_model_stream" && e.chunk.isAIMessageChunk
      && e.chunk.tool_call_chunks.isEmpty then
    let d := chunkText e.chunk
    if d == "" then none else some d
  else none

/-- The SSE frames the generators emit. -/
inductive Frame where
  | intent (intentName : String) (confidence : ℚ) (reasoning : String)
  | token (data : String)
  | done
  | error (msg : String)
  | sseError (msg : String)
  | status (s : String)
  | results (s : String)
deriving DecidableEq, Repr

/-- `str(e).replace("\n", " ")`: the newline substitution applied to an
exception message before it is framed. -/
def newlineToSpace (s : String) : String :=
  ⟨s.data.map fun c => if c = '\n' then ' ' else c⟩

/-- The `async for` loop body shared by both generators: walk the events
in order; a positive disconnect poll breaks out of the loop (recorded by
the boolean); otherwise the event may contribute one token frame. -/
def runStreamLoop : List StreamEvent → List Frame × Bool
  | [] => ([], false)
  | e :: rest =>
      if e.disconnected then ([], true)
      else
        let tail := runStreamLoop rest
        (match emitsToken e with
         | some d => Frame.token d :: tail.1
         | none => tail.1, tail.2)

/-- The frames emitted by `_handle_chat`: the loop, then `done` after a
normal loop exit (including a disconnect `break`); an exception from the
stream source (which can only fire if the loop was not broken) is caught
and framed as `error` with its message newline-substituted. -/
def handle_chat_frames (events : List StreamEvent) (streamExc : Option PyErr) :
    List Frame :=
  let r := runStreamLoop events
  if r.2 then r.1 ++ [Frame.done]
  else
    match streamExc with
    | none => r.1 ++ [Frame.done]
    | some e => r.1 ++ [Frame.error (newlineToSpace e)]

/-- The full `_handle_chat` generator of `agent_endpoint.py`:
`token = session_context.set(thread_id)`, the `try` body streaming the
graph events (which are produced under the context value installed by
`set`, hence the event stream is a function of that value), and the
`finally: session_context.reset(token)` on every exit path. -/
def handle_chat_run (s0 : CtxState) (thread_id : String)
    (events : Option String → List StreamEvent) (streamExc : Option PyErr) :
    CtxState × List Frame :=
  let st := ctxSet s0 thread_id
  let frames := handle_chat_frames (events st.1.ctx) streamExc
  (ctxReset st.2, frames)

/-- The frames emitted by `stream.event_generator` in `endpoints.py`:
identical control flow, with the exception framed as an `sse-error`
event. -/
def stream_endpoint_frames (events : List StreamEvent)
    (streamExc : Option PyErr) : List Frame :=
  let r := runStreamLoop events
  if r.2 then r.1 ++ [Frame.done]
  else
    match streamExc with
    | none => r.1 ++ [Frame.done]
    | some e => r.1 ++ [Frame.sseError (newlineToSpace e)]

/-- The full `stream.event_generator` of `endpoints.py`: same
set/try/finally discipline around the streaming loop. -/
def stream_endpoint_run (s0 : CtxState) (thread_id : String)
    (events : Option String → List StreamEvent) (streamExc : Option PyErr) :
    CtxState × List Frame :=
  let st := ctxSet s0 thread_id
  let frames := stream_endpoint_frames (events st.1.ctx) streamExc
  (ctxReset st.2, frames)

/-- The outer `event_generator` of the `/agent` endpoint: emit the
`intent` frame, dispatch on the classified intent (the ingest and
evaluate branches do not poll for disconnection and are abstracted as
the frame list they produce), and in every case run the
`finally: shutil.rmtree(temp_dir, ignore_errors=True)` cleanup — the
boolean records that the temporary directory was deleted. -/
def agent_event_generator_run (s0 : CtxState) (intent : IntentClassification)
    (thread_id : String) (events : Option String → List StreamEvent)
    (streamExc : Option PyErr) (otherFrames : List Frame) :
    CtxState × List Frame × Bool :=
  let head := Frame.intent intent.intent intent.confidence intent.reasoning
  if intent.intent == "chat" then
    let r := handle_chat_run s0 thread_id events streamExc
    (r.1, head :: r.2, true)
  else
    (s0, head :: otherFrames, true)

/-! ### The agent graph

`llm.py` wires a `StateGraph` over `MessagesState`: entry point `agent`,
conditional edges from `agent` via the library's `tools_condition`
(route to `tools` iff the latest message carries tool calls, to `END`
otherwise), and an unconditional edge `tools → agent`.  `agent_node`
appends the model's response; `ToolNode` executes the tool calls of the
latest message in order and appends one tool message per call.  The
model is an oracle mapping the full accumulated message sequence to its
next response. -/

/-- A tool-call request carried by a model message. -/
structure ToolCall where
  name : String
  args : String
  id : String
deriving DecidableEq, Repr

/-- A conversation message: user-authored, model-authored (with its
tool-call requests), or a tool result tied to the originating call. -/
inductive Msg where
  | human (content : String)
  | ai (content : String) (tool_calls : List ToolCall)
  | tool (content : String) (tool_call_id : String)
deriving DecidableEq, Repr

/-- The tool calls of a message (non-AI messages carry none). -/
def msgToolCalls : Msg → List ToolCall
  | .ai _ tcs => tcs
  | _ => []

/-- The graph nodes: the two named nodes plus the implicit END. -/
inductive GNode where
  | agent
  | tools
  | terminal
deriving DecidableEq, Repr

/-- The library `tools_condition` used for the conditional edges: route
to `tools` iff the latest message has one or more tool calls, to END
otherwise. -/
def tools_condition (messages : List Msg) : GNode :=
  match messages.getLast? with
  | some m => if (msgToolCalls m).isEmpty then .terminal else .tools
  | none => .terminal

/-- The stores, ranking oracles and ambient context the two registered
tools close over. -/
structure ToolEnv where
  globalStore : List Chunk
  sessionStore : List Chunk
  globalRank : String → List Chunk → List Chunk
  sessionRank : String → List Chunk → List Chunk
  ctx : Option String

/-- Dispatch of one tool call to the registered tools
`[search_global_knowledge, search_session_knowledge]` (an unrecognized
name yields the library's invalid-tool diagnostic string). -/
def execTool (env : ToolEnv) (tc : ToolCall) : String :=
  if tc.name == "search_global_knowledge" then
    search_global_knowledge env.globalStore env.globalRank tc.args
  else if tc.name == "search_session_knowledge" then
    search_session_knowledge env.ctx env.sessionStore env.sessionRank tc.args
  else
    "Error: " ++ tc.name ++ " is not a valid tool."

/-- `agent_node`: invoke the model on the full accumulated message
sequence and append its response. -/
def agent_node (oracle : List Msg → String × List ToolCall)
    (messages : List Msg) : List Msg :=
  messages ++ [Msg.ai (oracle messages).1 (oracle messages).2]

/-- `ToolNode`: execute every tool call of the latest message, in the
order the model requested them, appending one tool message per call. -/
def tool_node (env : ToolEnv) (messages : List Msg) : List Msg :=
  let calls := msgToolCalls ((messages.getLast?).getD (.human ""))
  messages ++ calls.map fun tc => Msg.tool (execTool env tc) tc.id

/-- One transition of the compiled graph from a node about to execute:
run that node and pick the successor (`agent` via `tools_condition`,
`tools` via the unconditional edge back to `agent`). -/
def graphStep (env : ToolEnv) (oracle : List Msg → String × List ToolCall) :
    GNode → List Msg → GNode × List Msg
  | .agent, msgs =>
      let msgs' := agent_node oracle msgs
      (tools_condition msgs', msgs')
  | .tools, msgs => (.agent, tool_node env msgs)
  | .terminal, msgs => (.terminal, msgs)

/-- The execution trace of the graph: the list of `(node, input message
sequence)` pairs for each node execution, starting at the entry point,
bounded by fuel (the source imposes no hop bound; every claim concerns
a finite prefix). -/
def runTrace (env : ToolEnv) (oracle : List Msg → String × List ToolCall) :
    ℕ → GNode → List Msg → List (GNode × List Msg)
  | 0, _, _ => []
  | fuel + 1, n, msgs =>
      match n with
      | .terminal => []
      | .agent =>
          (GNode.agent, msgs) ::
            (let s := graphStep env oracle .agent msgs
             runTrace env oracle fuel s.1 s.2)
      | .tools =>
          (GNode.tools, msgs) ::
            (let s := graphStep env oracle .tools msgs
             runTrace env oracle fuel s.1 s.2)

/-! ### Candidate evaluation: response parsing (`evaluator.py`) -/

/-- The characters after the first newline, if the list has one. -/
def afterFirstNewline : List Char → Option (List Char)
  | [] => none
  | c :: rest => if c = '\n' then some rest else afterFirstNewline rest

/-- The code-fence cleanup in `evaluate_candidate`: on a stripped text
starting with a fence, drop through the first newline when there is one,
and when the remainder ends with a closing fence drop its last three
characters and strip again. -/
def stripFencesEvaluator (s : String) : String :=
  if strStartsWith s "```" then
    let t : List Char := (afterFirstNewline s.data).getD s.data
    if ("```".data.reverse).isPrefixOf t.reverse then
      pyStrip ⟨(t.reverse.drop 3).reverse⟩
    else ⟨t⟩
  else s

/-- Python `dict.setdefault(k, v)`: keep an existing binding, append the
default otherwise; an `AttributeError` on any non-dict value (as happens
when `json.loads` produced a valid JSON value that is not an object). -/
def pySetdefault (j : Json) (k : String) (v : Json) : Except PyErr Json :=
  match j with
  | .obj fields =>
      .ok (.obj (if (lookupField fields k).isSome then fields
                 else fields ++ [(k, v)]))
  | _ => .error "AttributeError: setdefault on non-dict JSON value"

/-- The response-handling tail of `evaluate_candidate`: flatten the model
content, strip it, remove code fences, attempt `json.loads` with the
fixed fallback dictionary on failure, then `setdefault` the
`raw_response` and `codeforces_rating` keys. -/
def evaluate_candidate_parse (jsonLoads : String → Except PyErr Json)
    (content : LLMContent) : Except PyErr Json := do
  let contentText := stripFencesEvaluator (pyStrip (flattenContent content))
  let parsed : Json :=
    match jsonLoads contentText with
    | .ok j => j
    | .error _ =>
        .obj [("meets_requirements", .null),
              ("reasoning", .str (pyStrip contentText)),
              ("missing_criteria", .arr []),
              ("codeforces_rating", .null)]
  let p1 ← pySetdefault parsed "raw_response" (.str (pyStrip contentText))
  pySetdefault p1 "codeforces_rating" .null

/-! ### Candidate evaluation: the batch loop (`endpoints.py`) -/

/-- Lookup in a CSV row (a dict of string fields). -/
def rowGet : List (String × String) → String → Option String
  | [], _ => none
  | (k', v) :: rest, k => if k' = k then some v else rowGet rest k

/-- Python truthiness of an optional string: `None` and `""` are falsy. -/
def pyTruthy : Option String → Bool
  | none => false
  | some s => !s.isEmpty

/-- Python `a or b` on optional strings: the first operand when truthy,
the second otherwise. -/
def pyOr (a b : Option String) : Option String :=
  if pyTruthy a then a else b

/-- One entry of the `evaluated_candidates` batch result (the Python dict
holds `candidate_id`, the echoed `row`, and either an `evaluation` or an
`error` field, plus `resume_filename` on success entries). -/
structure EvalEntry where
  candidate_id : Option String
  row : List (String × String)
  resume_filename : Option String
  error : Option String
  evaluation : Option Json
deriving Repr, BEq

/-- The case-insensitive resume lookup built from the names of the files
extracted from the archive: `resume_lookup[file_path.name.lower()] =
file_path`. -/
def buildResumeLookup (archiveNames : List String) : List (String × String) :=
  archiveNames.foldl (fun acc n => metaSet acc (pyLower n) n) []

/-- The per-row body of the batch loop in `evaluate_candidates`: empty or
missing `resume_filename` → error entry; name absent from the lookup →
error entry; otherwise extract the resume and evaluate (the oracle
covers text extraction plus the model call; a raised exception becomes
the row's error entry).  The boolean records whether the row reached the
evaluation stage. -/
def processRow (lookup : String → Option String)
    (evalOracle : List (String × String) → Except PyErr Json)
    (row : List (String × String)) : EvalEntry × Bool :=
  let resume_name := pyStrip ((rowGet row "resume_filename").getD "")
  let candidate_id :=
    pyOr (pyOr (rowGet row "candidate_id") (rowGet row "id")) (rowGet row "name")
  if resume_name = "" then
    (⟨candidate_id, row, none, some "Missing resume_filename in CSV row", none⟩,
     false)
  else
    match lookup (pyLower resume_name) with
    | none =>
        (⟨candidate_id, row, none,
          some ("Resume file " ++ resume_name ++ " not found in archive"),
          none⟩, false)
    | some _path =>
        match evalOracle row with
        | .ok ev =>
            (⟨candidate_id, row, some resume_name, none, some ev⟩, true)
        | .error e =>
            (⟨candidate_id, row, none, some e, none⟩, true)

/-- The `/evaluate-candidates` batch route (`evaluate_candidates` in
`endpoints.py`), from the point where the CSV has been read: header
validation (missing headers or a missing `resume_filename` column raise
a 400 before any row is touched), the empty-rows rejection, then the
independent per-row loop.  The second component counts rows that
reached the evaluation stage. -/
def evaluate_candidates_run (fieldnames : Option (List String))
    (rows : List (List (String × String))) (archiveNames : List String)
    (evalOracle : List (String × String) → Except PyErr Json) :
    Except PyErr (List EvalEntry) × ℕ :=
  match fieldnames with
  | none => (.error "CSV file is empty or missing headers", 0)
  | some fns =>
      if !fns.contains "resume_filename" then
        (.error "CSV must include a resume_filename column", 0)
      else if rows.isEmpty then
        (.error "No candidate rows found in CSV", 0)
      else
        let lookup := fun k => metaLookup (buildResumeLookup archiveNames) k
        let processed := rows.map (processRow lookup evalOracle)
        (.ok (processed.map (·.1)), (processed.filter (·.2)).length)

/-! ## Theorems for the specification claims -/

/-- C4: whenever the attached file names include one ending in `.csv` and
one ending in `.zip` (case-insensitively) and the lowercased message
contains an evaluation-style keyword, the router returns intent
`evaluate` with confidence 0.95 from the heuristic alone — the result is
independent of the model fallback and no model call is issued (second
component `false`), and the conclusion holds whatever the ingest or chat
rules would have matched, so the evaluate rule has priority. -/
theorem evaluate_rule_has_priority (message : String) (file_names : List String)
    (fallback : IntentClassification)
    (hcsv : file_names.any (fun f => strEndsWith (pyLower f) ".csv") = true)
    (hzip : file_names.any (fun f => strEndsWith (pyLower f) ".zip") = true)
    (hkw : evaluate_keywords.any (fun kw => strContains (pyLower message) kw) = true) :
    route_intent message file_names fallback =
      (⟨"evaluate", conf 95, "CSV + ZIP files with evaluation keywords detected"⟩,
       false) := by
  unfold route_intent detect_intent_heuristic
  simp only [hcsv, hzip, hkw, Bool.and_self, Bool.true_and, if_true]
  norm_num [conf]

/-- C4 witness: the spec's own example input. -/
theorem evaluate_rule_has_priority_witness :
    route_intent "Please evaluate these candidates"
        ["criteria.pdf", "candidates.csv", "resumes.zip"]
        ⟨"chat", conf 50, "fallback"⟩ =
      (⟨"evaluate", conf 95, "CSV + ZIP files with evaluation keywords detected"⟩,
       false) :=
  evaluate_rule_has_priority "Please evaluate these candidates"
    ["criteria.pdf", "candidates.csv", "resumes.zip"]
    ⟨"chat", conf 50, "fallback"⟩ (by decide) (by decide) (by decide)

/-- C5 counterexample: on the message `Add this to the database` with no
files, the heuristic matches none of its ingest keywords (the closest,
`add to database` and `add this document`, do not occur in the message),
returns `None`, and the router falls through to the model classifier —
refuting the claim that this input yields `ingest` at 0.90 from the
heuristic without a model call. -/
theorem ingest_example_misses_heuristic :
    detect_intent_heuristic "Add this to the database" [] = none ∧
    route_intent "Add this to the database" [] ⟨"chat", conf 50, "fallback"⟩ =
      (⟨"chat", conf 50, "fallback"⟩, true) := by
  constructor
  · decide
  · decide

/-- C5 amended: the heuristic returns `None` on the exact message `Add
this to the database` (so the router issues a model call there); a
message whose lowercased text does contain one of the ingest keywords —
such as `add to database` — and does not match the evaluate rule yields
intent `ingest` with confidence 0.90 from the heuristic without a model
call. -/
theorem ingest_keyword_heuristic (message : String) (file_names : List String)
    (fallback : IntentClassification)
    (hkw : ingest_keywords.any (fun kw => strContains (pyLower message) kw) = true)
    (hnoeval : (file_names.any (fun f => strEndsWith (pyLower f) ".csv")
        && file_names.any (fun f => strEndsWith (pyLower f) ".zip")
        && evaluate_keywords.any (fun kw => strContains (pyLower message) kw))
        = false) :
    route_intent message file_names fallback =
      (⟨"ingest", conf 90, "Explicit ingest keywords detected"⟩, false) := by
  unfold route_intent detect_intent_heuristic
  simp only [hkw, hnoeval, Bool.false_eq_true, if_false, if_true]
  norm_num [conf]

/-- C5 amended witness: `Add to database` with no files. -/
theorem ingest_keyword_heuristic_witness :
    route_intent "Add to database" [] ⟨"chat", conf 50, "fallback"⟩ =
      (⟨"ingest", conf 90, "Explicit ingest keywords detected"⟩, false) :=
  ingest_keyword_heuristic "Add to database" [] ⟨"chat", conf 50, "fallback"⟩
    (by decide) (by decide)

/-- C6: for every behaviour of the classification model and of the JSON
parser, `classify_intent` always returns a classification (it is a total
function of the two oracles, embedding that no exception escapes the
`try`/`except`), and on any failure of the `try` body — in particular on
model-invocation failure and on JSON parse failure of the cleaned
response — it returns the default: intent `chat`, confidence 0.5, and a
rationale noting the failure. -/
theorem classify_intent_defaults_on_failure (invoke : Except PyErr LLMContent)
    (jsonLoads : String → Except PyErr Json) :
    (∀ e, classify_try invoke jsonLoads = .error e →
        classify_intent invoke jsonLoads =
          ⟨"chat", conf 50, "Classification failed, defaulting to chat: " ++ e⟩) ∧
    (∀ e, invoke = .error e →
        classify_intent invoke jsonLoads =
          ⟨"chat", conf 50, "Classification failed, defaulting to chat: " ++ e⟩) ∧
    (∀ c e, invoke = .ok c →
        jsonLoads (stripFencesRouter (pyStrip (flattenContent c))) = .error e →
        classify_intent invoke jsonLoads =
          ⟨"chat", conf 50, "Classification failed, defaulting to chat: " ++ e⟩) ∧
    (∃ r, classify_intent invoke jsonLoads = r ∧
        (classify_try invoke jsonLoads = .ok r ∨
         r.intent = "chat" ∧ r.confidence = conf 50)) := by
  refine ⟨?_, ?_, ?_, ?_⟩
  · intro e he
    simp [classify_intent, he]
  · intro e he
    have h2 : classify_try invoke jsonLoads = .error e := by
      simp [classify_try, he, Bind.bind, Except.bind]
    simp [classify_intent, h2]
  · intro c e hc hj
    have h2 : classify_try invoke jsonLoads = .error e := by
      simp [classify_try, hc, hj, Bind.bind, Except.bind]
    simp [classify_intent, h2]
  · cases h : classify_try invoke jsonLoads with
    | ok r => exact ⟨r, by simp [classify_intent, h], Or.inl rfl⟩
    | error e =>
        exact ⟨⟨"chat", conf 50,
          "Classification failed, defaulting to chat: " ++ e⟩,
          by simp [classify_intent, h], Or.inr ⟨rfl, rfl⟩⟩

/-- C6 witness: a failing model invocation and a parser that rejects
everything. -/
theorem classify_intent_defaults_on_failure_witness :
    classify_intent (.error "model invocation failed")
        (fun _ => .error "invalid JSON") =
      ⟨"chat", conf 50,
       "Classification failed, defaulting to chat: model invocation failed"⟩ :=
  (classify_intent_defaults_on_failure (.error "model invocation failed")
      (fun _ => .error "invalid JSON")).2.1 "model invocation failed" rfl

/-- Helper: looking up the key just set by `metaSet`. -/
theorem metaLookup_metaSet (md : List (String × String)) (k v : String) :
    metaLookup (metaSet md k v) k = some v := by
  induction md with
  | nil => simp [metaSet, metaLookup]
  | cons kv rest ih =>
      obtain ⟨k', v'⟩ := kv
      by_cases h : k' = k
      · simp [metaSet, metaLookup, h]
      · simp [metaSet, metaLookup, h, ih]

/-- A demonstration session store holding chunks of two sessions and an
untagged chunk. -/
def demoSessionStore : List Chunk :=
  [⟨"s1 doc", [("session_id", "s1")]⟩,
   ⟨"s2 doc", [("session_id", "s2")]⟩,
   ⟨"untagged doc", []⟩]

/-- C1: every chunk added through `add_session_documents` carries the
adding request's thread identifier in its `session_id` metadata, and a
session-scoped search executed under session `S1` — which filters the
store by equality on `metadata.session_id` before the index ranks the
candidates — returns only chunks tagged `S1`: never a chunk tagged with
a different session `S2` and never a chunk lacking the tag.  The ranking
oracle is arbitrary subject to returning chunks drawn from the filtered
candidate set handed to it. -/
theorem session_search_isolation (docs : List Chunk) (tid : String)
    (store : List Chunk) (rank : String → List Chunk → List Chunk)
    (s1 s2 query : String)
    (hrank : ∀ q l, ∀ c ∈ rank q l, c ∈ l)
    (hne : s1 ≠ s2) :
    (∀ c ∈ tagSessionDocuments docs tid,
        metaLookup c.metadata "session_id" = some tid) ∧
    (∀ c ∈ search_session_results store rank s1 query,
        metaLookup c.metadata "session_id" = some s1 ∧
        metaLookup c.metadata "session_id" ≠ some s2 ∧
        metaLookup c.metadata "session_id" ≠ none) := by
  constructor
  · intro c hc
    simp only [tagSessionDocuments, List.mem_map] at hc
    obtain ⟨d, _, rfl⟩ := hc
    exact metaLookup_metaSet d.metadata "session_id" tid
  · intro c hc
    have hmem : c ∈ rank query (store.filter (matchesSessionFilter s1)) :=
      List.mem_of_mem_take hc
    have hfil : c ∈ store.filter (matchesSessionFilter s1) :=
      hrank query _ c hmem
    have hmatch : matchesSessionFilter s1 c = true :=
      (List.mem_filter.mp hfil).2
    have heq : metaLookup c.metadata "session_id" = some s1 := by
      simpa [matchesSessionFilter] using hmatch
    refine ⟨heq, ?_, ?_⟩
    · rw [heq]
      simp [hne]
    · rw [heq]
      simp

/-- C1 witness: in the demonstration store, a search under `s1` with the
identity ranking returns exactly the `s1` chunk, and that chunk carries
the `s1` tag, not the `s2` tag nor no tag. -/
theorem session_search_isolation_witness :
    (⟨"s1 doc", [("session_id", "s1")]⟩ : Chunk) ∈
      search_session_results demoSessionStore (fun _ l => l) "s1" "query" ∧
    (metaLookup (Chunk.mk "s1 doc" [("session_id", "s1")]).metadata "session_id"
        = some "s1" ∧
     metaLookup (Chunk.mk "s1 doc" [("session_id", "s1")]).metadata "session_id"
        ≠ some "s2" ∧
     metaLookup (Chunk.mk "s1 doc" [("session_id", "s1")]).metadata "session_id"
        ≠ none) :=
  ⟨by decide,
   (session_search_isolation [] "t" demoSessionStore (fun _ l => l) "s1" "s2"
      "query" (fun _ _ _ h => h) (by decide)).2
     ⟨"s1 doc", [("session_id", "s1")]⟩ (by decide)⟩

/-- C3: on the `/agent` chat path and on the `/stream` path the
session-context variable is set to the request's thread identifier for
the duration of the streamed body (the graph events are drawn at context
value `some thread_id`) and is restored to its prior value — or prior
absence — on every exit path, the exception path (`streamExc = some e`)
as well as normal completion (`streamExc = none`); and the session
search tool invoked while the variable is unset (`None`, or the empty
string a falsy thread identifier also fails the Python truthiness test)
returns the explanatory message string rather than raising. -/
theorem session_context_scoping (s0 : CtxState) (thread_id : String)
    (events : Option String → List StreamEvent) (streamExc : Option PyErr)
    (store : List Chunk) (rank : String → List Chunk → List Chunk)
    (query : String) :
    (handle_chat_run s0 thread_id events streamExc).1 = s0 ∧
    (stream_endpoint_run s0 thread_id events streamExc).1 = s0 ∧
    (handle_chat_run s0 thread_id events streamExc).2 =
      handle_chat_frames (events (some thread_id)) streamExc ∧
    (ctxSet s0 thread_id).1.ctx = some thread_id ∧
    search_session_knowledge none store rank query =
      "No session context found. Cannot search session documents." ∧
    search_session_knowledge (some "") store rank query =
      "No session context found. Cannot search session documents." := by
  refine ⟨rfl, rfl, rfl, rfl, rfl, rfl⟩

/-- Helper: the newline substitution leaves no newline character. -/
theorem newlineToSpace_no_newline (s : String) :
    '\n' ∉ (newlineToSpace s).data := by
  simp only [newlineToSpace, List.mem_map, not_exists]
  rintro c ⟨_, hc⟩
  by_cases h : c = '\n' <;> simp [h] at hc

/-- Helper: the streaming loop over a fully connected event list emits
one token frame per event accepted by `emitsToken`, in order, and does
not break. -/
theorem runStreamLoop_connected (events : List StreamEvent)
    (hconn : ∀ e ∈ events, e.disconnected = false) :
    runStreamLoop events =
      ((events.filterMap emitsToken).map Frame.token, false) := by
  induction events with
  | nil => simp [runStreamLoop]
  | cons e rest ih =>
      have he : e.disconnected = false := hconn e (by simp)
      have ih' := ih (fun x hx => hconn x (by simp [hx]))
      simp only [runStreamLoop, he, Bool.false_eq_true, if_false,
        List.filterMap_cons]
      cases h : emitsToken e <;> simp [h, ih']

/-- C7 counterexample: an `on_chat_model_stream` event whose
`AIMessageChunk` carries both a tool-call chunk and the non-empty text
delta `hi` produces no `token` frame (the generator suppresses every
delta with a non-empty `tool_call_chunks` list, not only tool-call-only
deltas), so the stream is just the terminal `done` frame — refuting
"exactly one token frame per non-empty text delta". -/
theorem token_frame_toolcall_counterexample :
    chunkText ⟨true, ["call_1"], .str "hi"⟩ = "hi" ∧
    handle_chat_frames [⟨false, "on_chat_model_stream",
        ⟨true, ["call_1"], .str "hi"⟩⟩] none = [Frame.done] := by
  constructor
  · rfl
  · rfl

/-- C7 amended: over any event sequence with no disconnect, the chat
translator emits exactly one `token` frame per non-empty text delta
carried by an `AIMessageChunk` whose `tool_call_chunks` list is empty —
any delta carrying tool-call chunks is suppressed, even when it also
carries text — followed by a terminal `done` frame on normal completion;
when the stream raises, the frames are the tokens emitted so far
followed by a terminal `error` frame whose message has newlines
replaced by spaces and therefore contains no newline character. -/
theorem chat_stream_framing (events : List StreamEvent) (m : PyErr)
    (hconn : ∀ e ∈ events, e.disconnected = false) :
    handle_chat_frames events none =
      (events.filterMap emitsToken).map Frame.token ++ [Frame.done] ∧
    handle_chat_frames events (some m) =
      (events.filterMap emitsToken).map Frame.token ++
        [Frame.error (newlineToSpace m)] ∧
    '\n' ∉ (newlineToSpace m).data := by
  have hrun := runStreamLoop_connected events hconn
  refine ⟨?_, ?_, newlineToSpace_no_newline m⟩
  · simp [handle_chat_frames, hrun]
  · simp [handle_chat_frames, hrun]

/-- C7 amended witness: a text delta, a tool-call-only delta and a
non-stream event, with the exception message `boom\nbang`. -/
theorem chat_stream_framing_witness :
    handle_chat_frames
        [⟨false, "on_chat_model_stream", ⟨true, [], .str "Hello"⟩⟩,
         ⟨false, "on_chat_model_stream", ⟨true, ["call_1"], .nil⟩⟩,
         ⟨false, "on_tool_start", ⟨false, [], .nil⟩⟩]
        (some "boom\nbang") =
      [Frame.token "Hello", Frame.error (newlineToSpace "boom\nbang")] :=
  (chat_stream_framing
    [⟨false, "on_chat_model_stream", ⟨true, [], .str "Hello"⟩⟩,
     ⟨false, "on_chat_model_stream", ⟨true, ["call_1"], .nil⟩⟩,
     ⟨false, "on_tool_start", ⟨false, [], .nil⟩⟩]
    "boom\nbang" (by decide)).2.1

/-- Helper: the streaming loop breaks at the first positive disconnect
poll, emitting only the token frames of the events before it. -/
theorem runStreamLoop_disconnect (pre : List StreamEvent) (d : StreamEvent)
    (post : List StreamEvent) (hpre : ∀ e ∈ pre, e.disconnected = false)
    (hd : d.disconnected = true) :
    runStreamLoop (pre ++ d :: post) =
      ((pre.filterMap emitsToken).map Frame.token, true) := by
  induction pre with
  | nil => simp [runStreamLoop, hd]
  | cons e rest ih =>
      have he : e.disconnected = false := hpre e (by simp)
      have ih' := ih (fun x hx => hpre x (by simp [hx]))
      simp only [List.cons_append, runStreamLoop, he, Bool.false_eq_true,
        if_false, List.filterMap_cons]
      cases h : emitsToken e <;> simp [h, ih']

/-- C8 counterexample: a `/agent` chat request whose very first disconnect
poll is positive.  The loop breaks before emitting anything, but the
`break` exits the loop normally and the generator then still emits the
terminal `done` frame — one further frame after the disconnect is
detected, refuting "emits zero further frames".  (The temporary-directory
cleanup does run: final component `true`.) -/
theorem disconnect_emits_done_counterexample :
    runStreamLoop [⟨true, "on_chat_model_stream", ⟨true, [], .str "x"⟩⟩] =
      ([], true) ∧
    agent_event_generator_run ⟨none⟩ ⟨"chat", conf 95, "r"⟩ "t1"
        (fun _ => [⟨true, "on_chat_model_stream", ⟨true, [], .str "x"⟩⟩])
        none [] =
      (⟨none⟩, [Frame.intent "chat" (conf 95) "r", Frame.done], true) := by
  constructor
  · rfl
  · rfl

/-- C8 amended: once a disconnect is detected on the `/agent` chat path,
the generator emits no further `token` or `error` frames — only the
single terminal `done` frame that follows the loop — and does not raise
(the run is a total function of its inputs); the context variable is
restored and the request's temporary directory is still deleted through
the `finally` cleanup (final component `true`). -/
theorem disconnect_stops_stream (s0 : CtxState) (intent : IntentClassification)
    (thread_id : String) (pre : List StreamEvent) (d : StreamEvent)
    (post : List StreamEvent) (streamExc : Option PyErr)
    (otherFrames : List Frame)
    (hintent : intent.intent = "chat")
    (hpre : ∀ e ∈ pre, e.disconnected = false)
    (hd : d.disconnected = true) :
    agent_event_generator_run s0 intent thread_id
        (fun _ => pre ++ d :: post) streamExc otherFrames =
      (s0, Frame.intent intent.intent intent.confidence intent.reasoning ::
            ((pre.filterMap emitsToken).map Frame.token ++ [Frame.done]),
       true) := by
  have hrun := runStreamLoop_disconnect pre d post hpre hd
  simp [agent_event_generator_run, hintent, handle_chat_run,
    handle_chat_frames, hrun, ctxSet, ctxReset]

/-- C8 amended witness: one token event, then a disconnect, then a
pending event and exception that are never reached. -/
theorem disconnect_stops_stream_witness :
    agent_event_generator_run ⟨some "prior"⟩ ⟨"chat", conf 95, "r"⟩ "t1"
        (fun _ =>
          [⟨false, "on_chat_model_stream", ⟨true, [], .str "Hi"⟩⟩] ++
            ⟨true, "on_chat_model_stream", ⟨true, [], .str "lost"⟩⟩ ::
              [⟨false, "on_chat_model_stream", ⟨true, [], .str "gone"⟩⟩])
        (some "late failure") [Frame.status "unused"] =
      (⟨some "prior"⟩,
       Frame.intent "chat" (conf 95) "r" ::
         [Frame.token "Hi", Frame.done],
       true) :=
  disconnect_stops_stream ⟨some "prior"⟩ ⟨"chat", conf 95, "r"⟩ "t1"
    [⟨false, "on_chat_model_stream", ⟨true, [], .str "Hi"⟩⟩]
    ⟨true, "on_chat_model_stream", ⟨true, [], .str "lost"⟩⟩
    [⟨false, "on_chat_model_stream", ⟨true, [], .str "gone"⟩⟩]
    (some "late failure") [Frame.status "unused"] rfl (by decide) rfl

/-- A concrete tool environment for graph witnesses: both collections,
an identity ranking, and a session context bound to `s1`. -/
def demoToolEnv : ToolEnv :=
  ⟨[⟨"global doc", []⟩], demoSessionStore, fun _ l => l, fun _ l => l,
   some "s1"⟩

/-- A concrete model oracle: the first response requests one
session-search tool call, every later response is a plain answer. -/
def demoOracle (messages : List Msg) : String × List ToolCall :=
  if messages.length == 1 then
    ("", [⟨"search_session_knowledge", "uploaded file", "call_1"⟩])
  else
    ("Here is the answer.", [])

/-- C2: in the compiled graph, (a) after an AGENT execution the next node
is TOOLS exactly when the model response carries tool calls, and the run
ends otherwise; (b) a TOOLS execution unconditionally hands control back
to AGENT with one tool result per tool call of the turn appended, in
order, after the tool-call message; (c) hence when the first model
response contains a tool call, the execution trace begins
AGENT, TOOLS, AGENT — exactly one TOOLS execution between the first and
second AGENT invocation — and the second AGENT invocation's input is the
initial messages, then the tool-call message, then that turn's tool
results. -/
theorem agent_graph_tool_loop (env : ToolEnv)
    (oracle : List Msg → String × List ToolCall) (msgs : List Msg)
    (fuel : ℕ) (h : (oracle msgs).2 ≠ []) :
    (∀ ms : List Msg, (graphStep env oracle .agent ms).1 =
        if (oracle ms).2 = [] then GNode.terminal else GNode.tools) ∧
    (∀ (ms : List Msg) (c : String) (tcs : List ToolCall),
        graphStep env oracle .tools (ms ++ [Msg.ai c tcs]) =
          (GNode.agent, ms ++ [Msg.ai c tcs] ++
            tcs.map fun tc => Msg.tool (execTool env tc) tc.id)) ∧
    (runTrace env oracle (fuel + 3) .agent msgs).take 3 =
      [(GNode.agent, msgs),
       (GNode.tools, msgs ++ [Msg.ai (oracle msgs).1 (oracle msgs).2]),
       (GNode.agent, msgs ++ [Msg.ai (oracle msgs).1 (oracle msgs).2] ++
          ((oracle msgs).2).map fun tc => Msg.tool (execTool env tc) tc.id)] := by
  have hagent : ∀ ms : List Msg, (graphStep env oracle .agent ms).1 =
      if (oracle ms).2 = [] then GNode.terminal else GNode.tools := by
    intro ms
    simp only [graphStep, agent_node, tools_condition, List.getLast?_concat,
      msgToolCalls]
    by_cases hh : (oracle ms).2 = [] <;> simp [hh]
  have htools : ∀ (ms : List Msg) (c : String) (tcs : List ToolCall),
      graphStep env oracle .tools (ms ++ [Msg.ai c tcs]) =
        (GNode.agent, ms ++ [Msg.ai c tcs] ++
          tcs.map fun tc => Msg.tool (execTool env tc) tc.id) := by
    intro ms c tcs
    simp [graphStep, tool_node, List.getLast?_concat, msgToolCalls,
      List.append_assoc]
  refine ⟨hagent, htools, ?_⟩
  have hstep1 : graphStep env oracle .agent msgs =
      (GNode.tools, msgs ++ [Msg.ai (oracle msgs).1 (oracle msgs).2]) := by
    have := hagent msgs
    simp only [graphStep, agent_node] at this ⊢
    rw [this]
    simp [h]
  have hstep2 := htools msgs (oracle msgs).1 (oracle msgs).2
  simp only [runTrace, hstep1, hstep2]
  simp [runTrace]

/-- C2 witness: starting from one human message, the demo oracle's first
response requests a session search, so the trace is AGENT, TOOLS, AGENT
with the tool's result appended after the tool-call message. -/
theorem agent_graph_tool_loop_witness :
    (runTrace demoToolEnv demoOracle 3 .agent [Msg.human "What is in my file?"]).take 3 =
      [(GNode.agent, [Msg.human "What is in my file?"]),
       (GNode.tools, [Msg.human "What is in my file?"] ++
          [Msg.ai (demoOracle [Msg.human "What is in my file?"]).1
            (demoOracle [Msg.human "What is in my file?"]).2]),
       (GNode.agent, [Msg.human "What is in my file?"] ++
          [Msg.ai (demoOracle [Msg.human "What is in my file?"]).1
            (demoOracle [Msg.human "What is in my file?"]).2] ++
          ((demoOracle [Msg.human "What is in my file?"]).2).map
            fun tc => Msg.tool (execTool demoToolEnv tc) tc.id)] :=
  (agent_graph_tool_loop demoToolEnv demoOracle [Msg.human "What is in my file?"]
    0 (by decide)).2.2

/-- C9: the batch evaluation rejects a CSV with no headers or without the
`resume_filename` column before any row is touched (zero rows reach the
evaluation stage, hence no model call is issued); with a valid header
and a nonempty batch, the result is the independent per-row map — so one
row's failure cannot abort the batch — where a row whose resume filename
is empty, or absent from the case-insensitive archive lookup, yields an
entry carrying an `error` field and no `evaluation` field, while a row
whose resume resolves and evaluates yields an entry carrying the
evaluation and no error. -/
theorem evaluate_candidates_row_isolation (fieldnames : Option (List String))
    (rows : List (List (String × String))) (archiveNames : List String)
    (evalOracle : List (String × String) → Except PyErr Json) :
    (fieldnames = none →
        evaluate_candidates_run fieldnames rows archiveNames evalOracle =
          (.error "CSV file is empty or missing headers", 0)) ∧
    (∀ fns, fieldnames = some fns → fns.contains "resume_filename" = false →
        evaluate_candidates_run fieldnames rows archiveNames evalOracle =
          (.error "CSV must include a resume_filename column", 0)) ∧
    (∀ fns, fieldnames = some fns → fns.contains "resume_filename" = true →
        rows ≠ [] →
        (evaluate_candidates_run fieldnames rows archiveNames evalOracle).1 =
          .ok (rows.map fun row =>
            (processRow (fun k => metaLookup (buildResumeLookup archiveNames) k)
              evalOracle row).1)) ∧
    (∀ (lk : String → Option String) (row : List (String × String)),
        pyStrip ((rowGet row "resume_filename").getD "") = "" →
        (processRow lk evalOracle row).1.error =
            some "Missing resume_filename in CSV row" ∧
        (processRow lk evalOracle row).1.evaluation = none) ∧
    (∀ (lk : String → Option String) (row : List (String × String)),
        pyStrip ((rowGet row "resume_filename").getD "") ≠ "" →
        lk (pyLower (pyStrip ((rowGet row "resume_filename").getD ""))) = none →
        (processRow lk evalOracle row).1.error =
            some ("Resume file " ++ pyStrip ((rowGet row "resume_filename").getD "")
              ++ " not found in archive") ∧
        (processRow lk evalOracle row).1.evaluation = none) ∧
    (∀ (lk : String → Option String) (row : List (String × String))
        (p : String) (ev : Json),
        pyStrip ((rowGet row "resume_filename").getD "") ≠ "" →
        lk (pyLower (pyStrip ((rowGet row "resume_filename").getD ""))) = some p →
        evalOracle row = .ok ev →
        (processRow lk evalOracle row).1.evaluation = some ev ∧
        (processRow lk evalOracle row).1.error = none) := by
  refine ⟨?_, ?_, ?_, ?_, ?_, ?_⟩
  · intro hf
    simp [evaluate_candidates_run, hf]
  · intro fns hf hcol
    have hnot : "resume_filename" ∉ fns := by simpa using hcol
    simp [evaluate_candidates_run, hf, hnot]
  · intro fns hf hcol hrows
    have hmem : "resume_filename" ∈ fns := by simpa using hcol
    simp [evaluate_candidates_run, hf, hmem, hrows]
  · intro lk row hempty
    simp [processRow, hempty]
  · intro lk row hnonempty hlk
    simp [processRow, hnonempty, hlk]
  · intro lk row p ev hnonempty hlk hev
    simp [processRow, hnonempty, hlk, hev]

/-- The demonstration batch: two resolvable resumes around one missing
resume, with case-insensitive archive names. -/
def demoRows : List (List (String × String)) :=
  [[("candidate_id", "c1"), ("resume_filename", "alice.pdf")],
   [("candidate_id", "c2"), ("resume_filename", "missing.pdf")],
   [("candidate_id", "c3"), ("resume_filename", "Bob.PDF")]]

/-- The file names extracted from the demonstration archive. -/
def demoArchive : List String := ["Alice.pdf", "bob.pdf"]

/-- A demonstration evaluator oracle: every reached evaluation succeeds
with a fixed verdict. -/
def demoEvalOracle : List (String × String) → Except PyErr Json :=
  fun _ => .ok (.obj [("meets_requirements", .bool true)])

/-- C9 witness: on the demonstration batch the run succeeds row by row;
the middle row's resume is absent from the archive lookup and yields an
error entry with no evaluation, while the first row still receives its
full evaluation. -/
theorem evaluate_candidates_row_isolation_witness :
    (evaluate_candidates_run (some ["candidate_id", "resume_filename"])
        demoRows demoArchive demoEvalOracle).1 =
      .ok (demoRows.map fun row =>
        (processRow (fun k => metaLookup (buildResumeLookup demoArchive) k)
          demoEvalOracle row).1) ∧
    (processRow (fun k => metaLookup (buildResumeLookup demoArchive) k)
        demoEvalOracle
        [("candidate_id", "c2"), ("resume_filename", "missing.pdf")]).1.error =
      some "Resume file missing.pdf not found in archive" ∧
    (processRow (fun k => metaLookup (buildResumeLookup demoArchive) k)
        demoEvalOracle
        [("candidate_id", "c2"), ("resume_filename", "missing.pdf")]).1.evaluation =
      none ∧
    (processRow (fun k => metaLookup (buildResumeLookup demoArchive) k)
        demoEvalOracle
        [("candidate_id", "c1"), ("resume_filename", "alice.pdf")]).1.evaluation =
      some (.obj [("meets_requirements", .bool true)]) :=
  ⟨(evaluate_candidates_row_isolation (some ["candidate_id", "resume_filename"])
      demoRows demoArchive demoEvalOracle).2.2.1
      ["candidate_id", "resume_filename"] rfl (by decide) (by decide),
   ((evaluate_candidates_row_isolation (some ["candidate_id", "resume_filename"])
      demoRows demoArchive demoEvalOracle).2.2.2.2.1
      (fun k => metaLookup (buildResumeLookup demoArchive) k)
      [("candidate_id", "c2"), ("resume_filename", "missing.pdf")]
      (by decide) (by decide)).1,
   ((evaluate_candidates_row_isolation (some ["candidate_id", "resume_filename"])
      demoRows demoArchive demoEvalOracle).2.2.2.2.1
      (fun k => metaLookup (buildResumeLookup demoArchive) k)
      [("candidate_id", "c2"), ("resume_filename", "missing.pdf")]
      (by decide) (by decide)).2,
   ((evaluate_candidates_row_isolation (some ["candidate_id", "resume_filename"])
      demoRows demoArchive demoEvalOracle).2.2.2.2.2
      (fun k => metaLookup (buildResumeLookup demoArchive) k)
      [("candidate_id", "c1"), ("resume_filename", "alice.pdf")]
      "Alice.pdf" (.obj [("meets_requirements", .bool true)])
      (by decide) (by decide) rfl).1⟩

/-- Helper: lookup distributes over appended field lists. -/
theorem lookupField_append (l1 l2 : List (String × Json)) (k : String) :
    lookupField (l1 ++ l2) k =
      match lookupField l1 k with
      | some v => some v
      | none => lookupField l2 k := by
  induction l1 with
  | nil => simp [lookupField]
  | cons kv rest ih =>
      obtain ⟨k', v'⟩ := kv
      by_cases h : k' = k <;> simp [lookupField, h, ih]

/-- C10 counterexample: the response text `42` is valid JSON, so the
parse succeeds — with a non-object value — and the subsequent
`parsed.setdefault("raw_response", ...)` raises an `AttributeError`
instead of returning a dictionary, refuting both that parsing never
leads to a raise and that every return carries the two keys. -/
theorem evaluate_candidate_nonobject_raises :
    evaluate_candidate_parse
        (fun s => if s = "42" then .ok (.num 42) else .error "ValueError")
        (.str "42") =
      .error "AttributeError: setdefault on non-dict JSON value" := by
  rfl

/-- C10 amended: when the cleaned response text is not valid JSON,
`evaluate_candidate` returns (without raising) the fallback dictionary —
`meets_requirements` null, `reasoning` the stripped raw text,
`missing_criteria` empty, `codeforces_rating` null — extended with the
`raw_response` key; and whenever the text parses to a JSON object, the
returned dictionary contains the `raw_response` and `codeforces_rating`
keys.  (A response that parses to a non-object JSON value instead
raises out of `setdefault`, as the counterexample shows.) -/
theorem evaluate_candidate_parse_spec (jsonLoads : String → Except PyErr Json)
    (content : LLMContent) :
    (∀ e, jsonLoads (stripFencesEvaluator (pyStrip (flattenContent content)))
          = .error e →
        evaluate_candidate_parse jsonLoads content = .ok (.obj
          [("meets_requirements", .null),
           ("reasoning", .str (pyStrip (stripFencesEvaluator
              (pyStrip (flattenContent content))))),
           ("missing_criteria", .arr []),
           ("codeforces_rating", .null),
           ("raw_response", .str (pyStrip (stripFencesEvaluator
              (pyStrip (flattenContent content)))))])) ∧
    (∀ fields, jsonLoads (stripFencesEvaluator (pyStrip (flattenContent content)))
          = .ok (.obj fields) →
        ∃ fields2, evaluate_candidate_parse jsonLoads content = .ok (.obj fields2) ∧
          (lookupField fields2 "raw_response").isSome = true ∧
          (lookupField fields2 "codeforces_rating").isSome = true) := by
  constructor
  · intro e h
    simp only [evaluate_candidate_parse, h]
    simp [pySetdefault, lookupField, Bind.bind, Except.bind]
  · intro fields h
    simp only [evaluate_candidate_parse, h]
    simp only [pySetdefault, Bind.bind, Except.bind]
    cases hraw : (lookupField fields "raw_response").isSome with
    | true =>
        cases hcf : (lookupField fields "codeforces_rating").isSome with
        | true => exact ⟨fields, by simp [hraw, hcf], hraw, hcf⟩
        | false =>
            refine ⟨fields ++ [("codeforces_rating", Json.null)], by simp [hraw, hcf], ?_, ?_⟩
            · rw [lookupField_append]
              cases hl : lookupField fields "raw_response" with
              | some v => simp
              | none => simp [hl] at hraw
            · rw [lookupField_append]
              cases hl : lookupField fields "codeforces_rating" with
              | some v => simp
              | none => simp [lookupField]
    | false =>
        have hraw2 : (lookupField (fields ++
            [("raw_response", Json.str (pyStrip (stripFencesEvaluator
              (pyStrip (flattenContent content)))))]) "raw_response").isSome = true := by
          rw [lookupField_append]
          cases hl : lookupField fields "raw_response" with
          | some v => simp
          | none => simp [lookupField]
        cases hcf : (lookupField (fields ++
            [("raw_response", Json.str (pyStrip (stripFencesEvaluator
              (pyStrip (flattenContent content)))))]) "codeforces_rating").isSome with
        | true =>
            exact ⟨fields ++ [("raw_response", Json.str (pyStrip (stripFencesEvaluator
              (pyStrip (flattenContent content)))))],
              by simp [hraw, hcf], hraw2, hcf⟩
        | false =>
            refine ⟨fields ++ [("raw_response", Json.str (pyStrip (stripFencesEvaluator
              (pyStrip (flattenContent content)))))] ++ [("codeforces_rating", Json.null)],
              by simp [hraw, hcf, List.append_assoc], ?_, ?_⟩
            · rw [lookupField_append]
              cases hl : lookupField (fields ++ [("raw_response", Json.str (pyStrip
                  (stripFencesEvaluator (pyStrip (flattenContent content)))))]) "raw_response" with
              | some v => simp
              | none => simp [hl] at hraw2
            · rw [lookupField_append]
              cases hl : lookupField (fields ++ [("raw_response", Json.str (pyStrip
                  (stripFencesEvaluator (pyStrip (flattenContent content)))))]) "codeforces_rating" with
              | some v => simp [hl] at hcf
              | none => simp [lookupField]

/-- C10 amended witness: an unparseable response text yields the fallback
dictionary with both keys. -/
theorem evaluate_candidate_parse_spec_witness :
    evaluate_candidate_parse (fun _ => .error "Expecting value")
        (.str "not json") =
      .ok (.obj
        [("meets_requirements", .null),
         ("reasoning", .str "not json"),
         ("missing_criteria", .arr []),
         ("codeforces_rating", .null),
         ("raw_response", .str "not json")]) :=
  (evaluate_candidate_parse_spec (fun _ => .error "Expecting value")
    (.str "not json")).1 "Expecting value" rfl

end DbebRag
